import Mathlib

set_option maxHeartbeats 1000000
set_option maxRecDepth 4000

/-!
Verification of the AI-Content-Digester core against its specification.

The development shallowly embeds the three core components of the repository:
the URL classifier / content extractors (`src/fetchers.py`, `src/main.py`),
the resilient completion client (`src/summarize.py`), and the relevance
scoring engine (`src/scoring.py`).  External effects (HTTP fetches, the
trafilatura / pypdf / youtube libraries) are modelled as environment records
whose operations return `Except`, an `Except.error` standing for a raised
Python exception at that call site; the embedded functions then reproduce the
source's `try`/`except` structure explicitly.  Machine-level details that the
sources never exercise (unicode case folding beyond ASCII, the NFKC netloc
check and the bracketed-host validation of very recent CPython `urlsplit`)
are noted where the model elides them.
-/

namespace Digester

instance {ε α : Type} [DecidableEq ε] [DecidableEq α] : DecidableEq (Except ε α) := fun x y =>
  match x, y with
  | .error a, .error b =>
    if h : a = b then .isTrue (h ▸ rfl) else .isFalse (fun he => h (Except.error.inj he))
  | .ok a, .ok b =>
    if h : a = b then .isTrue (h ▸ rfl) else .isFalse (fun he => h (Except.ok.inj he))
  | .error _, .ok _ => .isFalse (fun he => Except.noConfusion he)
  | .ok _, .error _ => .isFalse (fun he => Except.noConfusion he)

/-! ## Python string primitives

Executable counterparts of the Python `str` operations the sources use:
`in` (substring test), `endswith`, `lower`, `strip`/`lstrip`/`rstrip`,
`split`, and `sep.join`.  They operate on `List Char` so that proofs can
proceed by structural induction and witnesses by kernel reduction. -/

/-- Does the second list start with the first? (`str.startswith`, on chars). -/
def listStarts : List Char → List Char → Bool
  | [], _ => true
  | _ :: _, [] => false
  | p :: ps, c :: cs => p == c && listStarts ps cs

/-- Contiguous-substring test, Python's `pat in hay` on chars. -/
def listHasSub (pat : List Char) : List Char → Bool
  | [] => pat.isEmpty
  | c :: cs => listStarts pat (c :: cs) || listHasSub pat cs

/-- Python `pat in hay` for strings. -/
def strContains (hay pat : String) : Bool := listHasSub pat.toList hay.toList

/-- Python `s.endswith(suffix)`. -/
def strEndsWith (s suffix : String) : Bool :=
  listStarts suffix.toList.reverse s.toList.reverse

/-- Python `s.lower()` (ASCII case folding; the sources only compare ASCII
markers such as `"youtube.com"`, `".pdf"`, `"azure"`). -/
def strLower (s : String) : String := String.mk (s.toList.map Char.toLower)

/-- The default Python `str.strip` / regex `\s` whitespace set (ASCII part). -/
def isPyWs (c : Char) : Bool :=
  c == ' ' || c == '\t' || c == '\n' || c == '\r' || c == '\x0b' || c == '\x0c'

def pyStripList (cs : List Char) : List Char :=
  ((cs.dropWhile isPyWs).reverse.dropWhile isPyWs).reverse

/-- Python `s.strip()`. -/
def pyStrip (s : String) : String := String.mk (pyStripList s.toList)

/-- Python `s.strip(d)` for a single-character argument. -/
def stripCharList (d : Char) (cs : List Char) : List Char :=
  ((cs.dropWhile (· == d)).reverse.dropWhile (· == d)).reverse

/-- Python `s.lstrip(d)` for a single-character argument. -/
def lstripCharList (d : Char) (cs : List Char) : List Char := cs.dropWhile (· == d)

/-- Python `s.rstrip("/")` as used on the base URL in `summarize.py`. -/
def rstripSlashes (s : String) : String :=
  String.mk ((s.toList.reverse.dropWhile (· == '/')).reverse)

/-- Python `s.split(d)` for a one-character separator (no run collapsing,
`"".split(d) = [""]`). -/
def splitChar (d : Char) : List Char → List (List Char)
  | [] => [[]]
  | c :: cs =>
    let r := splitChar d cs
    if c == d then [] :: r else (c :: r.headD []) :: r.tail

def strSplitChar (d : Char) (s : String) : List String :=
  (splitChar d s.toList).map String.mk

/-- Python `s.split(d)[-1]` (the split list is never empty). -/
def lastSplit (d : Char) (s : String) : String := (strSplitChar d s).getLastD ""

/-- Python `sep.join(ts)`. -/
def joinSep (sep : String) : List String → String
  | [] => ""
  | [t] => t
  | t :: ts => t ++ sep ++ joinSep sep ts

/-- Python's `a or b` on strings (`a` if truthy, i.e. non-empty, else `b`). -/
def pyOrS (a b : String) : String := if a == "" then b else a

/-- Python `x == 0`-style truthiness helper is inlined at use sites; this is
`max`/`min` clamping from `scoring.py` (`_bounded`). -/
def _bounded (x lo hi : Int) : Int := max lo (min hi x)

/-! ## `urllib.parse.urlparse`

Model of CPython's `urlsplit`/`urlparse` for the parts the repository
consumes: `scheme`, `netloc`, `path` (with `params` split off as `urlparse`
does for schemes that use them), `query`, `fragment` — and, crucially, the
`ValueError("Invalid IPv6 URL")` raised when the authority holds an
unbalanced bracket.  Not modelled (never exercised by the sources and only
reachable on inputs outside the claims' scope): the NFKC `_checknetloc`
check for non-ASCII netlocs and recent CPython's validation of the inside of
a balanced bracket pair. -/

structure UrlParts where
  scheme : String
  netloc : String
  path : String
  params : String
  query : String
  fragment : String
deriving DecidableEq, Repr

/-- `scheme_chars` of `urllib.parse`. -/
def schemeChar (c : Char) : Bool :=
  c.isAlpha || c.isDigit || c == '+' || c == '-' || c == '.'

/-- Split a char list at the first occurrence of `d` (delimiter dropped);
`none` when `d` does not occur. -/
def splitAtFirst (d : Char) : List Char → Option (List Char × List Char)
  | [] => none
  | c :: cs =>
    if c == d then some ([], cs)
    else (splitAtFirst d cs).map (fun p => (c :: p.1, p.2))

/-- `uses_params` of `urllib.parse`. -/
def uses_params : List String :=
  ["", "ftp", "hdl", "prospero", "http", "imap", "https", "shttp", "rtsp",
   "rtspu", "sip", "sips", "mms", "sftp", "tel"]

/-- `_splitparams`: split `;params` off the last path segment (when the path
has a `/`) or off the whole path otherwise. -/
def splitParams (path : List Char) : List Char × List Char :=
  if path.contains '/' then
    let last := (splitChar '/' path).getLastD []
    match splitAtFirst ';' last with
    | none => (path, [])
    | some (a, b) => (path.take (path.length - last.length) ++ a, b)
  else
    match splitAtFirst ';' path with
    | none => (path, [])
    | some (a, b) => (a, b)

/-- CPython `urlparse`.  `Except.error` is the raised `ValueError`. -/
def urlparse (url : String) : Except String UrlParts :=
  -- WHATWG sanitation: lstrip C0 controls and space, drop all tab/CR/LF.
  let cs0 := url.toList.dropWhile (fun c => c.toNat ≤ 32)
  let cs := cs0.filter (fun c => !(c == '\t' || c == '\r' || c == '\n'))
  -- scheme: chars before the first ':', if they form a valid scheme.
  let schemeRest : String × List Char :=
    match splitAtFirst ':' cs with
    | some (pre, post) =>
      if pre ≠ [] ∧ (pre.headD 'a').isAlpha ∧ pre.all schemeChar then
        (String.mk (pre.map Char.toLower), post)
      else ("", cs)
    | none => ("", cs)
  let scheme := schemeRest.1
  let rest := schemeRest.2
  let netlocRest : Except String (List Char × List Char) :=
    match rest with
    | '/' :: '/' :: tail =>
      let netloc := tail.takeWhile (fun c => !(c == '/' || c == '?' || c == '#'))
      let after := tail.dropWhile (fun c => !(c == '/' || c == '?' || c == '#'))
      if (netloc.contains '[' && !netloc.contains ']')
          || (netloc.contains ']' && !netloc.contains '[') then
        Except.error "Invalid IPv6 URL"
      else Except.ok (netloc, after)
    | _ => Except.ok ([], rest)
  match netlocRest with
  | .error e => .error e
  | .ok (netloc, rest2) =>
    let fragSplit : List Char × List Char :=
      match splitAtFirst '#' rest2 with
      | some (a, b) => (a, b)
      | none => (rest2, [])
    let querySplit : List Char × List Char :=
      match splitAtFirst '?' fragSplit.1 with
      | some (a, b) => (a, b)
      | none => (fragSplit.1, [])
    let pparams : List Char × List Char :=
      if uses_params.contains scheme && querySplit.1.contains ';' then
        splitParams querySplit.1
      else (querySplit.1, [])
    .ok { scheme := scheme, netloc := String.mk netloc, path := String.mk pparams.1,
          params := String.mk pparams.2, query := String.mk querySplit.2,
          fragment := String.mk fragSplit.2 }

/-! ## `src/fetchers.py` and the dispatch in `src/main.py`

The extractors return `Except String (String × Meta)`: `.ok` is the Python
`(content_text, meta)` tuple, `.error` a raised exception escaping the
function.  External libraries appear as environment records whose calls
return `Except String` values (`.error` = the call raised). -/

/-- The metadata dict each extractor returns.  `pages`/`duration` are the
type-specific keys; `error` is the error tag key, absent on success. -/
structure Meta where
  type : String
  title : String
  url : String
  pages : Option Nat := none
  duration : Option Int := none
  error : Option String := none
deriving DecidableEq, Repr

/-- `fetchers._infer_type`: classify by host marker, then whole-URL `.pdf`
suffix.  `urlparse` has no surrounding `try`, so its `ValueError`
propagates (`.error`). -/
def _infer_type (url : String) : Except String String :=
  match urlparse url with
  | .error e => .error e
  | .ok u =>
    let host := strLower u.netloc
    if strContains host "youtube.com" || strContains host "youtu.be" then .ok "youtube"
    else if strEndsWith (strLower url) ".pdf" then .ok "pdf"
    else .ok "web"

/-- The classification used by `main.fetch` to pick an extractor: `.pdf`
suffix first, then a video marker substring anywhere in the URL. -/
def mainFetchKind (url : String) : String :=
  if strEndsWith (strLower url) ".pdf" then "pdf"
  else if strContains url "youtube.com" || strContains url "youtu.be" then "youtube"
  else "web"

/-- Match of the regex `[?&]v=([^&]+)` at the head of the list. -/
def vParamAt : List Char → Option (List Char)
  | q :: 'v' :: '=' :: rest =>
    if q == '?' || q == '&' then
      let cap := rest.takeWhile (· != '&')
      if cap.isEmpty then none else some cap
    else none
  | _ => none

/-- `re.search` of `[?&]v=([^&]+)`: leftmost position with a full match. -/
def vParamSearch : List Char → Option (List Char)
  | [] => none
  | c :: cs =>
    match vParamAt (c :: cs) with
    | some cap => some cap
    | none => vParamSearch cs

/-- Match of the regex `/shorts/([^?&/]+)` at the head of the list. -/
def shortsAt (cs : List Char) : Option (List Char) :=
  if listStarts "/shorts/".toList cs then
    let cap := (cs.drop 8).takeWhile (fun c => !(c == '?' || c == '&' || c == '/'))
    if cap.isEmpty then none else some cap
  else none

/-- `re.search` of `/shorts/([^?&/]+)`. -/
def shortsSearch : List Char → Option (List Char)
  | [] => none
  | c :: cs =>
    match shortsAt (c :: cs) with
    | some cap => some cap
    | none => shortsSearch cs

/-- `fetchers._youtube_id`.  The `urlparse` call is unguarded, so a parse
failure propagates. -/
def _youtube_id (url : String) : Except String String :=
  match urlparse url with
  | .error e => .error e
  | .ok u =>
    if strEndsWith u.netloc "youtu.be" then
      .ok (String.mk (lstripCharList '/' u.path.toList))
    else if strContains u.netloc "youtube.com" then
      match vParamSearch url.toList with
      | some cap => .ok (String.mk cap)
      | none =>
        match shortsSearch url.toList with
        | some cap => .ok (String.mk cap)
        | none => .ok (lastSplit '/' (String.mk (stripCharList '/' u.path.toList)))
    else .ok (lastSplit '/' (String.mk (stripCharList '/' u.path.toList)))

/-! ### Article extractor (`fetch_webpage`) -/

/-- External world of `fetch_webpage`: the HTTP fetch (`requests.get` +
`raise_for_status` + `.text`, collapsed to the body text or a raised
exception) and `trafilatura.extract` (`.ok none` models a `None` return,
`.error` a raised exception, including a failing `import`). -/
structure WebEnv where
  httpGet : String → Except String String
  extract : String → Except String (Option String)

/-- Case-insensitive `listStarts` against a lowercase pattern. -/
def ciStarts : List Char → List Char → Bool
  | [], _ => true
  | _ :: _, [] => false
  | p :: ps, c :: cs => p == c.toLower && ciStarts ps cs

/-- Lazy group of `(.*?)</title>`: the chars before the first closing tag,
`none` if there is no closing tag. -/
def findCloseTitle : List Char → Option (List Char)
  | [] => none
  | c :: cs =>
    if ciStarts "</title>".toList (c :: cs) then some []
    else (findCloseTitle cs).map (c :: ·)

/-- Match of `<title[^>]*>(.*?)</title>` (IGNORECASE, DOTALL) anchored at the
head of the list. -/
def titleAt (cs : List Char) : Option (List Char) :=
  if ciStarts "<title".toList cs then
    match (cs.drop 6).dropWhile (· != '>') with
    | '>' :: body => findCloseTitle body
    | _ => none
  else none

/-- `re.search` of the title regex: leftmost full match. -/
def titleSearch : List Char → Option (List Char)
  | [] => none
  | c :: cs =>
    match titleAt (c :: cs) with
    | some cap => some cap
    | none => titleSearch cs

/-- Collapse runs of `' '` to a single space. -/
def squeezeSpaces : List Char → List Char
  | [] => []
  | [c] => [c]
  | c1 :: c2 :: cs =>
    if c1 == ' ' && c2 == ' ' then squeezeSpaces (c2 :: cs)
    else c1 :: squeezeSpaces (c2 :: cs)

/-- `re.sub(r"\s+", " ", s)`: each maximal whitespace run becomes one space. -/
def collapseWs (cs : List Char) : List Char :=
  squeezeSpaces (cs.map (fun c => if isPyWs c then ' ' else c))

/-- The title block of `fetch_webpage` (lines 117-121): regex-scan the HTML
for a title element, collapse whitespace, strip, fall back to the URL. -/
def webTitleOf (html url : String) : String :=
  if html == "" then url
  else
    match titleSearch html.toList with
    | none => url
    | some cap =>
      let t := String.mk (pyStripList (collapseWs cap))
      if t == "" then url else t

/-- `fetchers.fetch_webpage`. -/
def fetch_webpage (env : WebEnv) (url : String) : Except String (String × Meta) :=
  match env.httpGet url with
  | .error e =>
    .ok ("", { type := "web", title := url, url := url,
               error := some ("http_error: " ++ e) })
  | .ok html =>
    let content :=
      match env.extract html with
      | .ok r => (r.getD "")       -- `trafilatura.extract(html) or ""`
      | .error _ => html           -- fallback: raw HTML on a raised error
    let title := webTitleOf html url
    .ok (pyStrip content, { type := "web", title := title, url := url })

/-! ### Document extractor (`fetch_pdf`) -/

/-- Parsed document as seen through pypdf: each page's `extract_text()`
outcome (`.error` = that page raised, `.ok none` = returned `None`), and the
metadata `/Title` lookup result. -/
structure PdfDoc where
  pages : List (Except String (Option String))
  metaTitle : Option String
deriving Repr

/-- External world of `fetch_pdf`: transport, then `pypdf.PdfReader` over the
fetched bytes. -/
structure PdfEnv where
  httpGet : String → Except String Unit
  parsePdf : Except String PdfDoc

/-- The per-page loop of `fetch_pdf` (lines 140-145): failing pages are
skipped, surviving pages contribute `extract_text() or ""`. -/
def pageTexts (pages : List (Except String (Option String))) : List String :=
  pages.filterMap fun p =>
    match p with
    | .ok t => some (t.getD "")
    | .error _ => none

/-- `fetchers.fetch_pdf`. -/
def fetch_pdf (env : PdfEnv) (url : String) : Except String (String × Meta) :=
  match env.httpGet url with
  | .error e =>
    .ok ("", { type := "pdf", title := pyOrS (lastSplit '/' url) "PDF", url := url,
               error := some ("http_error: " ++ e) })
  | .ok _ =>
    match env.parsePdf with
    | .error e =>
      .ok ("", { type := "pdf", title := pyOrS (lastSplit '/' url) "PDF", url := url,
                 error := some ("pdf_parse_error: " ++ e) })
    | .ok doc =>
      let texts := pageTexts doc.pages
      let content := pyStrip (joinSep "\n\n" (texts.filter (fun t => t != "")))
      let title := pyOrS (pyOrS (doc.metaTitle.getD "") (lastSplit '/' url)) "PDF"
      .ok (content, { type := "pdf", title := title, url := url,
                      pages := some doc.pages.length })

/-! ### Video extractor (`fetch_youtube`) -/

/-- The dict `yt_dlp.extract_info` may return: `title` (possibly absent) and
the outcome of `int(info.get("duration") or 0)` (`.error` = the conversion
raised, caught by the inner `except` and replaced by 0). -/
structure YtInfoDict where
  title : Option String
  durationConv : Except String Int

/-- External world of `fetch_youtube`: the transcript-API import, the
`get_transcript` call per language preference (`none` = no `languages`
argument), and `extract_info` (`.ok none` = a non-dict result under
`ignoreerrors`).  A transcript part is its `"text"` field (`""` = missing). -/
structure YtEnv where
  transcriptImport : Except String Unit
  getTranscript : String → Option (List String) → Except String (List String)
  extractInfo : Except String (Option YtInfoDict)

/-- The language-preference loop (lines 168-174): a raising attempt keeps the
previous `parts`, a non-empty result breaks. -/
def transcriptLoop (f : Option (List String) → Except String (List String)) :
    List (Option (List String)) → Option (List String) → Option (List String)
  | [], parts => parts
  | l :: ls, parts =>
    match f l with
    | .error _ => transcriptLoop f ls parts
    | .ok ps => if ps.isEmpty then transcriptLoop f ls (some ps) else some ps

/-- The ordered language-preference sets tried by `fetch_youtube`. -/
def langAttempts : List (Option (List String)) :=
  [some ["en", "en-US"], some ["en-GB"], none]

/-- `fetchers.fetch_youtube`.  `_youtube_id` runs before any `try` block, so
its exception propagates; both sub-fetches are individually guarded. -/
def fetch_youtube (env : YtEnv) (url : String) : Except String (String × Meta) :=
  match _youtube_id url with
  | .error e => .error e
  | .ok video_id =>
    let transcript_text :=
      match env.transcriptImport with
      | .error _ => ""
      | .ok _ =>
        match transcriptLoop (env.getTranscript video_id) langAttempts none with
        | none => ""
        | some parts =>
          if parts.isEmpty then ""
          else joinSep " " (parts.filter (fun t => t != ""))
    let titleDur : Option String × Int :=
      match env.extractInfo with
      | .error _ => (none, 0)
      | .ok none => (none, 0)
      | .ok (some d) =>
        let t : Option String :=
          match d.title with
          | some s => if s == "" then none else some s   -- `info.get("title") or title`
          | none => none
        let dur : Int :=
          match d.durationConv with
          | .ok n => n
          | .error _ => 0
        (t, dur)
    let title :=
      match titleDur.1 with
      | some t => t
      | none => "YouTube: " ++ video_id               -- `if not title:` fallback
    .ok (pyStrip transcript_text,
         { type := "youtube", title := title, url := url, duration := some titleDur.2 })

/-! ## `src/summarize.py`

Two pieces: the request shaping done before the loop (provider convention,
headers, endpoint path, `model` field), and the attempt loop of
`chat_complete` with its retry/backoff policy. -/

/-- The environment variables `summarize.py` reads at module load. -/
structure ClientEnv where
  OPENAI_API_KEY : Option String := none
  OPENAI_BASE_URL : Option String := none
  OPENAI_MODEL : Option String := none
  OPENAI_API_VERSION : Option String := none
  AZURE_OPENAI_DEPLOYMENT : Option String := none

/-- `summarize._env`: default when unset or blank after `strip()`. -/
def envResolve (v : Option String) (d : String) : String :=
  match v with
  | none => d
  | some s => if pyStrip s == "" then d else s

def openai_api_key (e : ClientEnv) : String := envResolve e.OPENAI_API_KEY ""
def openai_base_url (e : ClientEnv) : String :=
  envResolve e.OPENAI_BASE_URL "https://api.openai.com/v1"
def openai_model (e : ClientEnv) : String := envResolve e.OPENAI_MODEL "gpt-4o-mini"
def openai_api_version (e : ClientEnv) : String :=
  envResolve e.OPENAI_API_VERSION "2024-05-01-preview"

/-- `summarize._is_azure`: marker search over the whole lowercased base URL. -/
def _is_azure (base_url : String) : Bool :=
  let u := strLower base_url
  strContains u "azure" || strContains u "openai.azure.com"

/-- The deployment id resolved in the Azure branch of `chat_complete`. -/
def azureDeployment (e : ClientEnv) : String :=
  envResolve e.AZURE_OPENAI_DEPLOYMENT (openai_model e)

/-- The convention-dependent parts of the request `chat_complete` builds:
relative endpoint path, headers, and whether the JSON body carries a `model`
field.  The convention-independent body fields (`messages`, `temperature`,
`max_tokens`) are identical in both branches and not modelled. -/
structure ChatRequest where
  endpoint : String
  headers : List (String × String)
  bodyModel : Option String
deriving DecidableEq, Repr

/-- Request shaping of `chat_complete` (lines 19-50).  `.error` is the
`ValueError` raised when the Azure branch resolves an empty deployment. -/
def chat_request (e : ClientEnv) : Except String ChatRequest :=
  let base := rstripSlashes (pyOrS (openai_base_url e) "")
  let key := openai_api_key e
  if _is_azure base then
    let deployment := azureDeployment e
    if deployment == "" then
      .error "Azure OpenAI base URL configured but no AZURE_OPENAI_DEPLOYMENT/OPENAI_MODEL provided"
    else
      .ok { endpoint := "openai/deployments/" ++ deployment
                          ++ "/chat/completions?api-version=" ++ openai_api_version e,
            headers := [("api-key", key), ("Content-Type", "application/json")],
            bodyModel := none }
  else
    .ok { endpoint := if strEndsWith base "/v1" then "chat/completions"
                      else "v1/chat/completions",
          headers := [("Authorization", "Bearer " ++ key),
                      ("Content-Type", "application/json")],
          bodyModel := some (pyOrS (openai_model e) "gpt-4o-mini") }

/-! ### The attempt loop -/

/-- What one `c.post` attempt does, as the loop observes it:
a network-level exception, or a reply with status, parsed error-body code,
parsed `Retry-After` header (header absent or unparseable = `none`), body
text, and the choice text a 2xx body would yield. -/
inductive AttemptOutcome where
  | netError
  | reply (status : Nat) (errCode : Option String) (retryAfter : Option Nat)
          (body : String) (text : String)

/-- How `chat_complete` ends: returned text, re-raised `HTTPStatusError`
(status and surfaced body), re-raised network error, or the unreachable
fall-through of the `for` loop. -/
inductive ChatOutcome where
  | ok (text : String)
  | raisedStatus (status : Nat) (body : String)
  | raisedNet
  | fellThrough
deriving DecidableEq, Repr

/-- `max_retries = 4` (line 52). -/
def max_retries : Nat := 4

/-- `base_delay * (2 ** attempt) + random.uniform(0, 0.5)` with
`base_delay = 1.5`; `j` is the per-attempt jitter draw. -/
def backoffDelay (j : Nat → Rat) (attempt : Nat) : Rat :=
  (3 / 2 : Rat) * 2 ^ attempt + j attempt

/-- The backoff sleep of the HTTP branch: the `Retry-After` value verbatim
when present, the computed exponential backoff otherwise (line 97). -/
def sleep_for (j : Nat → Rat) (attempt : Nat) (ra : Option Nat) : Rat :=
  match ra with
  | some r => (r : Rat)
  | none => backoffDelay j attempt

/-- The `for attempt in range(max_retries + 1)` loop of `chat_complete`
(lines 55-102), with the slept durations accumulated. -/
def chat_loop (resp : Nat → AttemptOutcome) (j : Nat → Rat) :
    List Nat → List Rat → ChatOutcome × List Rat
  | [], sleeps => (.fellThrough, sleeps)
  | attempt :: rest, sleeps =>
    match resp attempt with
    | .netError =>
      if max_retries ≤ attempt then (.raisedNet, sleeps)
      else chat_loop resp j rest (sleeps ++ [backoffDelay j attempt])
    | .reply s code ra body text =>
      if 200 ≤ s ∧ s ≤ 299 then (.ok text, sleeps)     -- `raise_for_status` passes
      else if code = some "insufficient_quota" then (.raisedStatus s body, sleeps)
      else if s = 429 ∨ (500 ≤ s ∧ s ≤ 599) then
        if max_retries ≤ attempt then (.raisedStatus s body, sleeps)
        else chat_loop resp j rest (sleeps ++ [sleep_for j attempt ra])
      else (.raisedStatus s body, sleeps)

/-- The whole retry state machine of `chat_complete`. -/
def chat_complete_run (resp : Nat → AttemptOutcome) (j : Nat → Rat) :
    ChatOutcome × List Rat :=
  chat_loop resp j (List.range (max_retries + 1)) []

/-- Transient HTTP statuses per the policy: 429 or any 5xx. -/
def retryable (s : Nat) : Prop := s = 429 ∨ (500 ≤ s ∧ s ≤ 599)

instance (s : Nat) : Decidable (retryable s) := by unfold retryable; infer_instance

/-! ## `src/scoring.py` -/

/-- `scoring._host`: netloc of the URL, lowercased, `""` on any parse
failure (the `try`/`except` at lines 36-40). -/
def _host (url : String) : String :=
  match urlparse url with
  | .ok u => strLower u.netloc
  | .error _ => ""

/-- `scoring._topic_match_score`.  `hits` counts interest keywords occurring
case-insensitively in the title. -/
def _topic_match_score (title : String) (notes_keywords : Option (List String)) : Int :=
  match notes_keywords with
  | none => 20                        -- `if not notes_keywords`
  | some [] => 20
  | some kws =>
    let title_l := strLower title
    let hits : Nat := (kws.filter (fun kw => strContains title_l (strLower kw))).length
    _bounded (5 + (hits : Int) * 15) 0 40

/-- `scoring._info_density_score`. -/
def _info_density_score (word_count : Int) (has_code_signals : Bool) : Int :=
  let base : Int :=
    if word_count == 0 then 15        -- `if not word_count`
    else if word_count < 400 then 12
    else if word_count ≤ 1500 then 22
    else if word_count ≤ 3000 then 18
    else 12
  let base := if has_code_signals then base + 3 else base
  _bounded base 0 25

/-- `scoring._time_efficiency_score`.  Integer division is Python's floor
division. -/
def _time_efficiency_score (kind : String) (word_count : Int) (duration_sec : Int) : Int :=
  if kind == "youtube" && duration_sec != 0 then
    let minutes := max 1 (Int.fdiv duration_sec 60)
    if minutes ≤ 7 then 18
    else if minutes ≤ 15 then 20
    else if minutes ≤ 30 then 14
    else 8
  else
    if word_count == 0 then 12
    else
      let minutes := max 1 (Int.fdiv word_count 200)
      if minutes ≤ 5 then 18
      else if minutes ≤ 12 then 20
      else if minutes ≤ 20 then 14
      else 8

/-- `scoring._credibility_score`, parameterized by the host-weight mapping
loaded from `config/source_weights.json` (an association list; absence of
the file degrades to `[]`). -/
def _credibility_score (hostWeights : List (String × Int)) (url : String) : Int :=
  let host := _host url
  let bonus := (hostWeights.lookup host).getD 0
  _bounded bonus 0 15

/-- The technical-signal tokens of `recommend_score` (line 109). -/
def code_tokens : List String :=
  ["c#", "dotnet", ".net", "kubernetes", "jwt", "oidc", "rocm", "pytorch", "bambu"]

def has_code_signals (title : String) : Bool :=
  code_tokens.any (fun tok => strContains (strLower title) tok)

/-- The per-factor breakdown `recommend_score` returns. -/
structure Breakdown where
  topic_match : Int
  info_density : Int
  time_efficiency : Int
  credibility : Int
  host : String
deriving DecidableEq, Repr

/-- `scoring.recommend_score`: `(score, label, breakdown)`. -/
def recommend_score (hostWeights : List (String × Int)) (kind : String)
    (word_count duration_sec : Int) (url title : String)
    (interests : Option (List String)) : Int × String × Breakdown :=
  let s_topic := _topic_match_score title interests
  let s_info := _info_density_score word_count (has_code_signals title)
  let s_time := _time_efficiency_score kind word_count duration_sec
  let s_cred := _credibility_score hostWeights url
  let score := s_topic + s_info + s_time + s_cred
  let label := if 70 ≤ score then "Read/Watch" else if 50 ≤ score then "Skim" else "Skip"
  (score, label,
   { topic_match := s_topic, info_density := s_info, time_efficiency := s_time,
     credibility := s_cred, host := _host url })

/-! ## Concrete data used by witnesses and counterexamples -/

/-- A video-extractor world where every library call raises. -/
def ytEnvAllRaise : YtEnv :=
  { transcriptImport := .ok (),
    getTranscript := fun _ _ => .error "TranscriptsDisabled",
    extractInfo := .error "DownloadError" }

/-- A webpage world: fetch succeeds, readability pass returns `None`. -/
def webEnvNoneText : WebEnv :=
  { httpGet := fun _ => .ok "<p>hi</p>", extract := fun _ => .ok none }

/-- A webpage world: fetch succeeds with a titled page, readability raises. -/
def webEnvRaise : WebEnv :=
  { httpGet := fun _ => .ok "<html><title> A  B </title>body</html>",
    extract := fun _ => .error "ImportError" }

/-- A document world: four pages, one of which raises, one yields `None`. -/
def pdfEnvMixed : PdfEnv :=
  { httpGet := fun _ => .ok (),
    parsePdf := .ok { pages := [.ok (some "p1"), .error "page boom", .ok none, .ok (some "p3")],
                      metaTitle := none } }

/-- Completion server: quota-exhaustion body under status 429 on every attempt. -/
def respQuota429 : Nat → AttemptOutcome :=
  fun _ => .reply 429 (some "insufficient_quota") none "quota body" "unused"

/-- Completion server: a 429 whose body carries a non-quota error code, then
a 503 with a Retry-After hint, then 200. -/
def respTransientTwice : Nat → AttemptOutcome :=
  fun n =>
    if n == 0 then .reply 429 (some "rate_limit_exceeded") none "b0" "t0"
    else if n == 1 then .reply 503 none (some 7) "b1" "t1"
    else .reply 200 none none "okbody" "hi"

/-- Completion server: 503 with no hint on every attempt. -/
def respAlways503 : Nat → AttemptOutcome := fun _ => .reply 503 none none "unavailable" "t"

/-- Zero jitter stream. -/
def jZero : Nat → Rat := fun _ => 0

/-! ## Helper lemmas -/

theorem le_bounded (x lo hi : Int) : lo ≤ _bounded x lo hi := le_max_left _ _

theorem bounded_le (x lo hi : Int) (h : lo ≤ hi) : _bounded x lo hi ≤ hi :=
  max_le h (min_le_left _ _)

theorem le_bounded_of_le {c x hi : Int} (lo : Int) (h1 : c ≤ x) (h2 : c ≤ hi) :
    c ≤ _bounded x lo hi :=
  le_trans (le_min h2 h1) (le_max_right _ _)

theorem bounded_eq_of {x lo hi : Int} (h1 : lo ≤ x) (h2 : x ≤ hi) : _bounded x lo hi = x := by
  unfold _bounded
  rw [min_eq_right h2, max_eq_right h1]

theorem bounded_eq_hi {x lo hi : Int} (h1 : hi ≤ x) (h2 : lo ≤ hi) : _bounded x lo hi = hi := by
  unfold _bounded
  rw [min_eq_left h1, max_eq_right h2]

theorem topic_match_ge_5 (t : String) (i : Option (List String)) :
    5 ≤ _topic_match_score t i := by
  cases i with
  | none => norm_num [_topic_match_score]
  | some l =>
    cases l with
    | nil => norm_num [_topic_match_score]
    | cons k ks =>
      show (5 : Int) ≤ _bounded _ 0 40
      refine le_bounded_of_le 0 ?_ (by norm_num)
      have : (0 : Int) ≤ (((k :: ks).filter
          (fun kw => strContains (strLower t) (strLower kw))).length : Int) :=
        Int.ofNat_nonneg _
      nlinarith

theorem topic_match_bounds (t : String) (i : Option (List String)) :
    0 ≤ _topic_match_score t i ∧ _topic_match_score t i ≤ 40 := by
  cases i with
  | none => norm_num [_topic_match_score]
  | some l =>
    cases l with
    | nil => norm_num [_topic_match_score]
    | cons k ks =>
      exact ⟨le_bounded _ _ _, bounded_le _ _ _ (by norm_num)⟩

theorem info_density_bounds (wc : Int) (hc : Bool) :
    12 ≤ _info_density_score wc hc ∧ _info_density_score wc hc ≤ 25 := by
  unfold _info_density_score
  cases hc <;> split_ifs <;> decide

theorem time_efficiency_bounds (kind : String) (wc dur : Int) :
    8 ≤ _time_efficiency_score kind wc dur ∧ _time_efficiency_score kind wc dur ≤ 20 := by
  unfold _time_efficiency_score
  dsimp only
  split_ifs <;> decide

theorem credibility_bounds (hw : List (String × Int)) (url : String) :
    0 ≤ _credibility_score hw url ∧ _credibility_score hw url ≤ 15 :=
  ⟨le_bounded _ _ _, bounded_le _ _ _ (by norm_num)⟩

/-- `recommend_score` unfolded to its components (definitional). -/
theorem recommend_score_eq (hw : List (String × Int)) (kind : String)
    (wc dur : Int) (url title : String) (interests : Option (List String)) :
    recommend_score hw kind wc dur url title interests =
      (_topic_match_score title interests + _info_density_score wc (has_code_signals title)
         + _time_efficiency_score kind wc dur + _credibility_score hw url,
       (if 70 ≤ _topic_match_score title interests + _info_density_score wc (has_code_signals title)
             + _time_efficiency_score kind wc dur + _credibility_score hw url then "Read/Watch"
        else if 50 ≤ _topic_match_score title interests + _info_density_score wc (has_code_signals title)
             + _time_efficiency_score kind wc dur + _credibility_score hw url then "Skim"
        else "Skip"),
       { topic_match := _topic_match_score title interests,
         info_density := _info_density_score wc (has_code_signals title),
         time_efficiency := _time_efficiency_score kind wc dur,
         credibility := _credibility_score hw url,
         host := _host url }) := rfl

/-- The label chain of `recommend_score`, characterized. -/
theorem label_spec (S : Int) :
    ((if 70 ≤ S then "Read/Watch" else if 50 ≤ S then "Skim" else "Skip") = "Read/Watch"
        ↔ 70 ≤ S) ∧
    ((if 70 ≤ S then "Read/Watch" else if 50 ≤ S then "Skim" else "Skip") = "Skim"
        ↔ 50 ≤ S ∧ S < 70) ∧
    ((if 70 ≤ S then "Read/Watch" else if 50 ≤ S then "Skim" else "Skip") = "Skip"
        ↔ S < 50) := by
  split_ifs with h70 h50
  all_goals refine ⟨?_, ?_, ?_⟩ <;> simp_all <;> omega

/-- One loop iteration: a 2xx reply returns its text at once. -/
theorem chat_loop_success {resp : Nat → AttemptOutcome} {j : Nat → Rat}
    {a : Nat} {rest : List Nat} {sleeps : List Rat} {s : Nat} {code : Option String}
    {ra : Option Nat} {body text : String}
    (hresp : resp a = .reply s code ra body text) (h2xx : 200 ≤ s ∧ s ≤ 299) :
    chat_loop resp j (a :: rest) sleeps = (.ok text, sleeps) := by
  simp only [chat_loop, hresp]
  rw [if_pos h2xx]

/-- One loop iteration: a quota-exhaustion body re-raises at once, before the
status is even classified. -/
theorem chat_loop_quota {resp : Nat → AttemptOutcome} {j : Nat → Rat}
    {a : Nat} {rest : List Nat} {sleeps : List Rat} {s : Nat}
    {ra : Option Nat} {body text : String}
    (hresp : resp a = .reply s (some "insufficient_quota") ra body text)
    (hs : ¬(200 ≤ s ∧ s ≤ 299)) :
    chat_loop resp j (a :: rest) sleeps = (.raisedStatus s body, sleeps) := by
  simp only [chat_loop, hresp]
  rw [if_neg hs]
  simp

/-- One loop iteration: a retryable non-quota failure below the retry limit
sleeps (Retry-After verbatim, else computed backoff) and continues. -/
theorem chat_loop_retry {resp : Nat → AttemptOutcome} {j : Nat → Rat}
    {a : Nat} {rest : List Nat} {sleeps : List Rat} {s : Nat} {code : Option String}
    {ra : Option Nat} {body text : String}
    (hresp : resp a = .reply s code ra body text) (hs : retryable s)
    (hc : code ≠ some "insufficient_quota") (ha : a < max_retries) :
    chat_loop resp j (a :: rest) sleeps =
      chat_loop resp j rest (sleeps ++ [sleep_for j a ra]) := by
  have h2 : ¬(200 ≤ s ∧ s ≤ 299) := by
    rcases hs with h | h <;> omega
  simp only [chat_loop, hresp]
  rw [if_neg h2, if_neg hc,
    if_pos (show s = 429 ∨ (500 ≤ s ∧ s ≤ 599) from hs),
    if_neg (by omega : ¬max_retries ≤ a)]

/-- One loop iteration: a retryable failure at the retry limit re-raises. -/
theorem chat_loop_exhaust {resp : Nat → AttemptOutcome} {j : Nat → Rat}
    {a : Nat} {rest : List Nat} {sleeps : List Rat} {s : Nat} {code : Option String}
    {ra : Option Nat} {body text : String}
    (hresp : resp a = .reply s code ra body text) (hs : retryable s)
    (hc : code ≠ some "insufficient_quota") (ha : max_retries ≤ a) :
    chat_loop resp j (a :: rest) sleeps = (.raisedStatus s body, sleeps) := by
  have h2 : ¬(200 ≤ s ∧ s ≤ 299) := by
    rcases hs with h | h <;> omega
  simp only [chat_loop, hresp]
  rw [if_neg h2, if_neg hc,
    if_pos (show s = 429 ∨ (500 ≤ s ∧ s ≤ 599) from hs), if_pos ha]

/-- The loop visits attempts 0 through 4. -/
theorem range_attempts : List.range (max_retries + 1) = [0, 1, 2, 3, 4] := rfl

theorem listStarts_append (p r : List Char) : listStarts p (p ++ r) = true := by
  induction p with
  | nil => rfl
  | cons c cs ih => simp [listStarts, ih]

theorem listHasSub_nil (l : List Char) : listHasSub [] l = true := by
  cases l <;> simp [listHasSub, listStarts]

theorem listHasSub_cons (p : List Char) (c : Char) (l : List Char)
    (h : listHasSub p l = true) : listHasSub p (c :: l) = true := by
  cases p with
  | nil => simp [listHasSub, listStarts]
  | cons q qs => simp [listHasSub, h]

theorem listHasSub_of_starts (p l : List Char) (h : listStarts p l = true) :
    listHasSub p l = true := by
  cases p with
  | nil => exact listHasSub_nil l
  | cons q qs =>
    cases l with
    | nil => simp [listStarts] at h
    | cons c cs => simp [listHasSub, h]

theorem listHasSub_append_mid (pre p post : List Char) :
    listHasSub p (pre ++ (p ++ post)) = true := by
  induction pre with
  | nil => exact listHasSub_of_starts _ _ (listStarts_append p post)
  | cons c cs ih => exact listHasSub_cons _ _ _ ih

/-- A string contains any middle part of an append decomposition. -/
theorem strContains_of_parts (x pre pat post : String) (h : x = pre ++ pat ++ post) :
    strContains x pat = true := by
  subst h
  show listHasSub pat.toList (pre ++ pat ++ post).toList = true
  have hd : (pre ++ pat ++ post).toList = pre.toList ++ (pat.toList ++ post.toList) := by
    show (pre ++ pat ++ post).data = pre.data ++ (pat.data ++ post.data)
    show (pre.data ++ pat.data) ++ post.data = pre.data ++ (pat.data ++ post.data)
    exact List.append_assoc _ _ _
  rw [hd]
  exact listHasSub_append_mid _ _ _

theorem pyOrS_ne (a b : String) (h : a ≠ "") : pyOrS a b = a := by
  unfold pyOrS
  simp [h]

theorem pyOrS_empty (b : String) : pyOrS "" b = b := rfl

theorem envResolve_ne_empty (v : Option String) (d : String) (hd : d ≠ "") :
    envResolve v d ≠ "" := by
  unfold envResolve
  cases v with
  | none => exact hd
  | some s =>
    show (if (pyStrip s == "") = true then d else s) ≠ ""
    split_ifs with h
    · exact hd
    · intro he
      subst he
      exact absurd (by rfl) h

/-- The two document error tags can never collide. -/
theorem pdf_tags_distinct (e1 e2 : String) :
    ("pdf_parse_error: " ++ e1) ≠ ("http_error: " ++ e2) := by
  intro h
  have h2 : 'p' = 'h' := congrArg (fun s => s.toList.headD ' ') h
  exact absurd h2 (by decide)

/-- Skipping property of the page loop: a raising page contributes nothing
and does not abort the pages around it. -/
theorem pageTexts_skip (pre post : List (Except String (Option String))) (e : String) :
    pageTexts (pre ++ .error e :: post) = pageTexts pre ++ pageTexts post := by
  simp [pageTexts, List.filterMap_append, List.filterMap_cons]

/-- A URL that parses always yields a video id value (no branch of
`_youtube_id` raises past the parse). -/
theorem youtube_id_ok (url : String) (u : UrlParts) (h : urlparse url = .ok u) :
    ∃ v, _youtube_id url = .ok v := by
  unfold _youtube_id
  rw [h]
  dsimp only
  split_ifs with h1 h2
  · exact ⟨_, rfl⟩
  · cases hv : vParamSearch url.toList with
    | some cap => exact ⟨_, rfl⟩
    | none =>
      cases hs : shortsSearch url.toList with
      | some cap => exact ⟨_, rfl⟩
      | none => exact ⟨_, rfl⟩
  · exact ⟨_, rfl⟩

/-! ## The claims -/

/-- C6: for all inputs to `recommend_score`, each subscore stays within its
declared cap and floor (topic ≤ 40, info density ≤ 25, time efficiency ≤ 20,
credibility in [0, 15]), the returned total equals the sum of the four
subscores in the breakdown and lies in [0, 100], and the label boundaries
are exact: total ≥ 70 yields "Read/Watch", 50 ≤ total < 70 yields "Skim",
total < 50 yields "Skip"; the four closing conjuncts realize the boundary
scores 69 → Skim, 70 → Read/Watch, 49 → Skip, 50 → Skim on concrete
inputs. -/
theorem claim_C6 :
    (∀ (hw : List (String × Int)) (kind : String) (wc dur : Int) (url title : String)
       (interests : Option (List String)) (score : Int) (label : String) (bd : Breakdown),
      recommend_score hw kind wc dur url title interests = (score, label, bd) →
      (0 ≤ bd.topic_match ∧ bd.topic_match ≤ 40) ∧
      (0 ≤ bd.info_density ∧ bd.info_density ≤ 25) ∧
      (0 ≤ bd.time_efficiency ∧ bd.time_efficiency ≤ 20) ∧
      (0 ≤ bd.credibility ∧ bd.credibility ≤ 15) ∧
      score = bd.topic_match + bd.info_density + bd.time_efficiency + bd.credibility ∧
      (0 ≤ score ∧ score ≤ 100) ∧
      (label = "Read/Watch" ↔ 70 ≤ score) ∧
      (label = "Skim" ↔ 50 ≤ score ∧ score < 70) ∧
      (label = "Skip" ↔ score < 50)) ∧
    recommend_score [("ex.com", 9)] "web" 1000 0 "https://ex.com/a" "hello" none =
      (69, "Skim", ⟨20, 22, 18, 9, "ex.com"⟩) ∧
    recommend_score [("ex.com", 10)] "web" 1000 0 "https://ex.com/a" "hello" none =
      (70, "Read/Watch", ⟨20, 22, 18, 10, "ex.com"⟩) ∧
    recommend_score [("ex.com", 14)] "web" 100 0 "https://ex.com/a" "hello" (some ["zz"]) =
      (49, "Skip", ⟨5, 12, 18, 14, "ex.com"⟩) ∧
    recommend_score [("ex.com", 15)] "web" 100 0 "https://ex.com/a" "hello" (some ["zz"]) =
      (50, "Skim", ⟨5, 12, 18, 15, "ex.com"⟩) := by
  refine ⟨?_, by decide, by decide, by decide, by decide⟩
  intro hw kind wc dur url title interests score label bd h
  rw [recommend_score_eq] at h
  simp only [Prod.mk.injEq] at h
  obtain ⟨h1, h2, h3⟩ := h
  subst h1
  subst h2
  subst h3
  have t1 := topic_match_bounds title interests
  have t2 := info_density_bounds wc (has_code_signals title)
  have t3 := time_efficiency_bounds kind wc dur
  have t4 := credibility_bounds hw url
  have ls := label_spec (_topic_match_score title interests
      + _info_density_score wc (has_code_signals title)
      + _time_efficiency_score kind wc dur + _credibility_score hw url)
  exact ⟨t1, ⟨by linarith [t2.1], t2.2⟩, ⟨by linarith [t3.1], t3.2⟩, t4, rfl,
    ⟨by linarith [t1.1, t2.1, t3.1, t4.1], by linarith [t1.2, t2.2, t3.2, t4.2]⟩,
    ls.1, ls.2.1, ls.2.2⟩

/-- C6 witness: the universally quantified clause of `claim_C6`, applied at a
concrete input. -/
theorem claim_C6_witness :
    (0 ≤ (Breakdown.mk 20 22 18 9 "ex.com").topic_match
       ∧ (Breakdown.mk 20 22 18 9 "ex.com").topic_match ≤ 40) ∧
    (0 ≤ (Breakdown.mk 20 22 18 9 "ex.com").info_density
       ∧ (Breakdown.mk 20 22 18 9 "ex.com").info_density ≤ 25) ∧
    (0 ≤ (Breakdown.mk 20 22 18 9 "ex.com").time_efficiency
       ∧ (Breakdown.mk 20 22 18 9 "ex.com").time_efficiency ≤ 20) ∧
    (0 ≤ (Breakdown.mk 20 22 18 9 "ex.com").credibility
       ∧ (Breakdown.mk 20 22 18 9 "ex.com").credibility ≤ 15) ∧
    (69 : Int) = (Breakdown.mk 20 22 18 9 "ex.com").topic_match
        + (Breakdown.mk 20 22 18 9 "ex.com").info_density
        + (Breakdown.mk 20 22 18 9 "ex.com").time_efficiency
        + (Breakdown.mk 20 22 18 9 "ex.com").credibility ∧
    ((0 : Int) ≤ 69 ∧ (69 : Int) ≤ 100) ∧
    ("Skim" = "Read/Watch" ↔ (70 : Int) ≤ 69) ∧
    ("Skim" = "Skim" ↔ (50 : Int) ≤ 69 ∧ (69 : Int) < 70) ∧
    ("Skim" = "Skip" ↔ (69 : Int) < 50) :=
  claim_C6.1 [("ex.com", 9)] "web" 1000 0 "https://ex.com/a" "hello" none
    69 "Skim" ⟨20, 22, 18, 9, "ex.com"⟩ (by decide)

/-- C8 counterexample: two case-insensitive interest hits yield a topic-match
subscore of 35 (by the code's own formula 5 + 15 × hits), not the 30 the
claim states. -/
theorem claim_C8_counterexample :
    _topic_match_score "alpha beta" (some ["alpha", "beta"]) = 35 ∧ (35 : Int) ≠ 30 :=
  ⟨by decide, by decide⟩

/-- C8 (amended): the topic-match subscore is the fixed neutral 20 when the
interest list is empty or absent, and otherwise 5 + 15 × hits clamped to
[0, 40], where hits counts interest keywords occurring case-insensitively in
the title — so 0 hits give 5, 1 hit gives 20, 2 hits give 35 (not 30), and
3 or more hits give 40. -/
theorem claim_C8 : ∀ (title : String) (l : List String) (hits : Int),
    _topic_match_score title none = 20 ∧
    _topic_match_score title (some []) = 20 ∧
    (l ≠ [] →
      hits = ((l.filter (fun kw => strContains (strLower title) (strLower kw))).length : Int) →
      _topic_match_score title (some l) = _bounded (5 + hits * 15) 0 40 ∧
      (hits = 0 → _topic_match_score title (some l) = 5) ∧
      (hits = 1 → _topic_match_score title (some l) = 20) ∧
      (hits = 2 → _topic_match_score title (some l) = 35) ∧
      (3 ≤ hits → _topic_match_score title (some l) = 40)) := by
  intro title l hits
  refine ⟨rfl, rfl, ?_⟩
  intro hne hh
  cases l with
  | nil => exact absurd rfl hne
  | cons k ks =>
    subst hh
    refine ⟨rfl, ?_, ?_, ?_, ?_⟩ <;> intro hv
    · show _bounded _ 0 40 = 5
      rw [hv]
      decide
    · show _bounded _ 0 40 = 5 + 1 * 15
      rw [hv]
      decide
    · show _bounded _ 0 40 = 35
      rw [hv]
      decide
    · show _bounded _ 0 40 = 40
      exact bounded_eq_hi (by nlinarith) (by norm_num)

/-- C8 witness: one hit on a concrete title scores 20. -/
theorem claim_C8_witness :
    (["alpha"] ≠ ([] : List String)) ∧ _topic_match_score "alpha" (some ["alpha"]) = 20 :=
  ⟨by decide,
   (((claim_C8 "alpha" ["alpha"] 1).2.2 (by decide)) (by decide)).2.2.1 rfl⟩

/-- C10: the total `recommend_score` returns is never below 25 — the
topic-match subscore is at least 5 (20 when no interests are given), the
information-density subscore at least 12, the time-efficiency subscore at
least 8, and the credibility subscore at least 0 — even though the spec
declares the range [0, 100]. -/
theorem claim_C10 : ∀ (hw : List (String × Int)) (kind : String) (wc dur : Int)
    (url title : String) (interests : Option (List String))
    (score : Int) (label : String) (bd : Breakdown),
    recommend_score hw kind wc dur url title interests = (score, label, bd) →
    25 ≤ score ∧ 5 ≤ bd.topic_match ∧ 12 ≤ bd.info_density ∧
    8 ≤ bd.time_efficiency ∧ 0 ≤ bd.credibility ∧
    (interests = none → bd.topic_match = 20) := by
  intro hw kind wc dur url title interests score label bd h
  rw [recommend_score_eq] at h
  simp only [Prod.mk.injEq] at h
  obtain ⟨h1, h2, h3⟩ := h
  subst h1
  subst h2
  subst h3
  have t1 := topic_match_ge_5 title interests
  have t2 := (info_density_bounds wc (has_code_signals title)).1
  have t3 := (time_efficiency_bounds kind wc dur).1
  have t4 := (credibility_bounds hw url).1
  refine ⟨by linarith, t1, t2, t3, t4, ?_⟩
  intro hi
  subst hi
  rfl

/-- C1 counterexample: the extractors are not uniformly non-raising.  The
malformed URL `https://[youtube.com/watch?v=abc` contains the video marker,
so the dispatcher routes it to `fetch_youtube`; there `_youtube_id` calls
the URL parser outside any `try` block, and the parser's `ValueError`
propagates to the caller instead of becoming an error-tagged result. -/
theorem claim_C1_counterexample :
    mainFetchKind "https://[youtube.com/watch?v=abc" = "youtube" ∧
    fetch_youtube ytEnvAllRaise "https://[youtube.com/watch?v=abc" =
      .error "Invalid IPv6 URL" :=
  ⟨by decide, by decide⟩

/-- C1 (amended): `fetch_webpage` and `fetch_pdf` return a `(text, meta)`
value for every URL and every behavior of their external calls — every
failure is caught and converted into the error-tagged branch; `fetch_youtube`
does so for every URL the URL parser accepts, but propagates the parser's
exception on a malformed URL (unbalanced bracket in the authority). -/
theorem claim_C1 :
    (∀ (env : WebEnv) (url : String), ∃ t m, fetch_webpage env url = .ok (t, m)) ∧
    (∀ (env : PdfEnv) (url : String), ∃ t m, fetch_pdf env url = .ok (t, m)) ∧
    (∀ (env : YtEnv) (url : String) (u : UrlParts), urlparse url = .ok u →
      ∃ t m, fetch_youtube env url = .ok (t, m)) ∧
    (∀ (env : YtEnv) (url : String) (e : String), urlparse url = .error e →
      fetch_youtube env url = .error e) := by
  refine ⟨?_, ?_, ?_, ?_⟩
  · intro env url
    unfold fetch_webpage
    cases h : env.httpGet url with
    | error e => exact ⟨_, _, rfl⟩
    | ok html => exact ⟨_, _, rfl⟩
  · intro env url
    unfold fetch_pdf
    cases h : env.httpGet url with
    | error e => exact ⟨_, _, rfl⟩
    | ok u0 =>
      cases hp : env.parsePdf with
      | error e => exact ⟨_, _, rfl⟩
      | ok doc => exact ⟨_, _, rfl⟩
  · intro env url u h
    obtain ⟨v, hv⟩ := youtube_id_ok url u h
    unfold fetch_youtube
    rw [hv]
    exact ⟨_, _, rfl⟩
  · intro env url e h
    unfold fetch_youtube _youtube_id
    rw [h]

/-- C1 witness: `fetch_youtube` yields a value on a parseable URL even when
every library call raises. -/
theorem claim_C1_witness :
    urlparse "https://youtu.be/abc" = .ok ⟨"https", "youtu.be", "/abc", "", "", ""⟩ ∧
    ∃ t m, fetch_youtube ytEnvAllRaise "https://youtu.be/abc" = .ok (t, m) :=
  ⟨by decide,
   claim_C1.2.2.1 ytEnvAllRaise "https://youtu.be/abc"
     ⟨"https", "youtu.be", "/abc", "", "", ""⟩ (by decide)⟩

/-- C7 counterexample: when the readability pass returns nothing (`None`),
the extractor returns empty text, not the raw HTML — the raw-HTML fallback
fires only when the pass raises. -/
theorem claim_C7_counterexample :
    webEnvNoneText.extract "<p>hi</p>" = .ok none ∧
    fetch_webpage webEnvNoneText "http://x/" =
      .ok ("", { type := "web", title := "http://x/", url := "http://x/" }) ∧
    ("<p>hi</p>" : String) ≠ "" :=
  ⟨rfl, by decide, by decide⟩

/-- C7 (amended): on a successful fetch, `fetch_webpage` falls back to the
raw HTML only when the text-extraction pass raises; a pass returning no text
yields the empty string.  Title and text extraction are independent: the
text is a function of the extraction outcome alone, the title of the HTML
alone (falling back to the URL when the HTML has no title element), so a
failure of either never discards the other. -/
theorem claim_C7 : ∀ (env : WebEnv) (url html : String),
    env.httpGet url = .ok html →
    ∃ text meta, fetch_webpage env url = .ok (text, meta) ∧
      meta.error = none ∧ meta.url = url ∧ meta.title = webTitleOf html url ∧
      (∀ e, env.extract html = .error e → text = pyStrip html) ∧
      (env.extract html = .ok none → text = "") ∧
      (∀ s, env.extract html = .ok (some s) → text = pyStrip s) ∧
      (titleSearch html.toList = none → meta.title = url) := by
  intro env url html h
  unfold fetch_webpage
  rw [h]
  dsimp only
  refine ⟨_, _, rfl, rfl, rfl, rfl, ?_, ?_, ?_, ?_⟩
  · intro e he
    rw [he]
  · intro he
    rw [he]
    rfl
  · intro s hs
    rw [hs]
    rfl
  · intro ht
    show webTitleOf html url = url
    unfold webTitleOf
    split_ifs with hh
    · rfl
    · rw [ht]

/-- C7 witness: a titled page whose extraction pass raises keeps both the
raw-HTML text fallback and the extracted title. -/
theorem claim_C7_witness :
    webEnvRaise.httpGet "http://x/" = .ok "<html><title> A  B </title>body</html>" ∧
    ∃ text meta,
      fetch_webpage webEnvRaise "http://x/" = .ok (text, meta) ∧
      meta.error = none ∧ meta.url = "http://x/" ∧
      meta.title = webTitleOf "<html><title> A  B </title>body</html>" "http://x/" ∧
      (∀ e, webEnvRaise.extract "<html><title> A  B </title>body</html>" = .error e →
        text = pyStrip "<html><title> A  B </title>body</html>") ∧
      (webEnvRaise.extract "<html><title> A  B </title>body</html>" = .ok none → text = "") ∧
      (∀ s, webEnvRaise.extract "<html><title> A  B </title>body</html>" = .ok (some s) →
        text = pyStrip s) ∧
      (titleSearch (String.toList "<html><title> A  B </title>body</html>") = none →
        meta.title = "http://x/") :=
  ⟨rfl, claim_C7 webEnvRaise "http://x/" "<html><title> A  B </title>body</html>" rfl⟩

/-- C9: the Document extractor extracts page by page, skipping any failing
page rather than aborting (`pageTexts` clause), joins the recovered
non-empty pages with a blank-line separator, records the total page count,
falls back for the title from embedded metadata to the URL's final path
segment to the generic label `"PDF"`, and reports a whole-payload parse
failure with the tag `pdf_parse_error`, distinct from the transport tag
`http_error`. -/
theorem claim_C9 : ∀ (env : PdfEnv) (url : String),
    (∀ e, env.httpGet url = .error e →
      fetch_pdf env url = .ok ("",
        { type := "pdf", title := pyOrS (lastSplit '/' url) "PDF",
          url := url, error := some ("http_error: " ++ e) })) ∧
    (∀ e, env.httpGet url = .ok () → env.parsePdf = .error e →
      fetch_pdf env url = .ok ("",
        { type := "pdf", title := pyOrS (lastSplit '/' url) "PDF",
          url := url, error := some ("pdf_parse_error: " ++ e) })) ∧
    (∀ doc, env.httpGet url = .ok () → env.parsePdf = .ok doc →
      ∃ text meta, fetch_pdf env url = .ok (text, meta) ∧
        meta.error = none ∧
        meta.pages = some doc.pages.length ∧
        text = pyStrip (joinSep "\n\n" ((pageTexts doc.pages).filter (fun t => t != ""))) ∧
        (∀ t, doc.metaTitle = some t → t ≠ "" → meta.title = t) ∧
        ((doc.metaTitle = none ∨ doc.metaTitle = some "") →
          lastSplit '/' url ≠ "" → meta.title = lastSplit '/' url) ∧
        ((doc.metaTitle = none ∨ doc.metaTitle = some "") →
          lastSplit '/' url = "" → meta.title = "PDF")) ∧
    (∀ (pre post : List (Except String (Option String))) (e : String),
      pageTexts (pre ++ .error e :: post) = pageTexts pre ++ pageTexts post) ∧
    (∀ e1 e2 : String, ("pdf_parse_error: " ++ e1) ≠ ("http_error: " ++ e2)) := by
  intro env url
  refine ⟨?_, ?_, ?_, pageTexts_skip, pdf_tags_distinct⟩
  · intro e he
    unfold fetch_pdf
    rw [he]
  · intro e hg hp
    unfold fetch_pdf
    rw [hg, hp]
  · intro doc hg hp
    unfold fetch_pdf
    rw [hg, hp]
    dsimp only
    refine ⟨_, _, rfl, rfl, rfl, rfl, ?_, ?_, ?_⟩
    · intro t hmt hne
      rw [hmt]
      show pyOrS (pyOrS t (lastSplit '/' url)) "PDF" = t
      rw [pyOrS_ne _ _ hne, pyOrS_ne _ _ hne]
    · intro hmt hlast
      have hget : doc.metaTitle.getD "" = "" := by
        rcases hmt with h | h <;> rw [h] <;> rfl
      rw [hget]
      show pyOrS (pyOrS "" (lastSplit '/' url)) "PDF" = lastSplit '/' url
      rw [pyOrS_empty, pyOrS_ne _ _ hlast]
    · intro hmt hlast
      have hget : doc.metaTitle.getD "" = "" := by
        rcases hmt with h | h <;> rw [h] <;> rfl
      rw [hget, hlast]
      rfl

/-- C9 witness: a four-page document with one raising page and one empty
page yields the two surviving texts joined by a blank line, a page count of
4, and the filename-derived title. -/
theorem claim_C9_witness :
    pdfEnvMixed.parsePdf = .ok { pages := [.ok (some "p1"), .error "page boom",
        .ok none, .ok (some "p3")], metaTitle := none } ∧
    ∃ text meta,
      fetch_pdf pdfEnvMixed "https://x.com/a/doc.pdf" = .ok (text, meta) ∧
      meta.error = none ∧
      meta.pages = some (PdfDoc.mk [.ok (some "p1"), .error "page boom",
        .ok none, .ok (some "p3")] none).pages.length ∧
      text = pyStrip (joinSep "\n\n" ((pageTexts (PdfDoc.mk [.ok (some "p1"),
        .error "page boom", .ok none, .ok (some "p3")] none).pages).filter
          (fun t => t != ""))) ∧
      (∀ t, (PdfDoc.mk [.ok (some "p1"), .error "page boom", .ok none,
          .ok (some "p3")] none).metaTitle = some t → t ≠ "" → meta.title = t) ∧
      (((PdfDoc.mk [.ok (some "p1"), .error "page boom", .ok none,
          .ok (some "p3")] none).metaTitle = none ∨
        (PdfDoc.mk [.ok (some "p1"), .error "page boom", .ok none,
          .ok (some "p3")] none).metaTitle = some "") →
        lastSplit '/' "https://x.com/a/doc.pdf" ≠ "" →
        meta.title = lastSplit '/' "https://x.com/a/doc.pdf") ∧
      (((PdfDoc.mk [.ok (some "p1"), .error "page boom", .ok none,
          .ok (some "p3")] none).metaTitle = none ∨
        (PdfDoc.mk [.ok (some "p1"), .error "page boom", .ok none,
          .ok (some "p3")] none).metaTitle = some "") →
        lastSplit '/' "https://x.com/a/doc.pdf" = "" →
        meta.title = "PDF") :=
  ⟨rfl, (claim_C9 pdfEnvMixed "https://x.com/a/doc.pdf").2.2.1
    (PdfDoc.mk [.ok (some "p1"), .error "page boom", .ok none, .ok (some "p3")] none)
    rfl rfl⟩

/-- C4 counterexample: the two classification sites do not agree and do not
follow the claimed priority order or totality.  `https://youtube.com/v.pdf`
has a video-platform host, yet the `main.fetch` dispatcher sends it to the
Document extractor (its `.pdf` check runs first) while `_infer_type` says
Video; and a malformed URL (unbalanced bracket in the authority) makes
`_infer_type` raise `ValueError` instead of defaulting to Article. -/
theorem claim_C4_counterexample :
    mainFetchKind "https://youtube.com/v.pdf" = "pdf" ∧
    _infer_type "https://youtube.com/v.pdf" = .ok "youtube" ∧
    ("pdf" : String) ≠ "youtube" ∧
    _infer_type "http://[youtube.com/a" = .error "Invalid IPv6 URL" :=
  ⟨by decide, by decide, by decide, by decide⟩

/-- C4 (amended): classification is deterministic but the two call sites
differ.  `_infer_type` checks the parsed host for a video marker first, then
a case-insensitive `.pdf` suffix of the whole URL (not merely its path),
else Article — and propagates the parser's `ValueError` on a malformed URL
instead of defaulting to Article.  The `main.fetch` dispatcher is total but
checks the `.pdf` suffix first and then looks for a video marker anywhere in
the URL string. -/
theorem claim_C4 : ∀ url : String,
    (∀ e, urlparse url = .error e → _infer_type url = .error e) ∧
    (∀ u, urlparse url = .ok u →
      _infer_type url = .ok
        (if strContains (strLower u.netloc) "youtube.com"
            || strContains (strLower u.netloc) "youtu.be" then "youtube"
         else if strEndsWith (strLower url) ".pdf" then "pdf"
         else "web")) ∧
    (mainFetchKind url = "pdf" ↔ strEndsWith (strLower url) ".pdf" = true) ∧
    (mainFetchKind url = "youtube" ↔
      (strEndsWith (strLower url) ".pdf" = false ∧
       (strContains url "youtube.com" || strContains url "youtu.be") = true)) ∧
    (mainFetchKind url = "pdf" ∨ mainFetchKind url = "youtube" ∨ mainFetchKind url = "web") := by
  intro url
  refine ⟨?_, ?_, ?_, ?_, ?_⟩
  · intro e h
    unfold _infer_type
    rw [h]
  · intro u h
    unfold _infer_type
    rw [h]
    dsimp only
    split_ifs <;> rfl
  · unfold mainFetchKind
    split_ifs with h1 h2 <;> simp_all
  · unfold mainFetchKind
    split_ifs with h1 h2 <;> simp_all
  · unfold mainFetchKind
    split_ifs <;> simp

/-- C4 witness: the ok-branch of `claim_C4` at a concrete short-link URL. -/
theorem claim_C4_witness :
    urlparse "https://youtu.be/abc" = .ok ⟨"https", "youtu.be", "/abc", "", "", ""⟩ ∧
    _infer_type "https://youtu.be/abc" = .ok
      (if strContains (strLower (UrlParts.mk "https" "youtu.be" "/abc" "" "" "").netloc) "youtube.com"
          || strContains (strLower (UrlParts.mk "https" "youtu.be" "/abc" "" "" "").netloc) "youtu.be"
       then "youtube"
       else if strEndsWith (strLower "https://youtu.be/abc") ".pdf" then "pdf"
       else "web") :=
  ⟨by decide,
   (claim_C4 "https://youtu.be/abc").2.1 ⟨"https", "youtu.be", "/abc", "", "", ""⟩ (by decide)⟩

/-- C5 counterexample: the convention is not selected from the host string.
For base endpoint `https://api.example.com/azure` the host is
`api.example.com`, which carries no managed-cloud marker, so the claim
requires the generic convention (body with a `model` field, path ending in
`chat/completions`); but the code matches `"azure"` against the whole URL
and shapes an Azure request: deployment path, api-version query, and no
`model` field in the body. -/
theorem claim_C5_counterexample :
    _host "https://api.example.com/azure" = "api.example.com" ∧
    strContains "api.example.com" "azure" = false ∧
    chat_request { OPENAI_BASE_URL := some "https://api.example.com/azure" } =
      .ok { endpoint := "openai/deployments/gpt-4o-mini/chat/completions?api-version=2024-05-01-preview",
            headers := [("api-key", ""), ("Content-Type", "application/json")],
            bodyModel := none } :=
  ⟨by decide, by decide, by decide⟩

/-- C5 (amended): the request-shaping convention is selected deterministically
from the whole configured base endpoint string (not just its host): when the
lowercased base URL contains the managed-cloud marker, the request path
contains the resolved deployment id and the api-version query parameter, the
credential travels in a dedicated `api-key` header, and the body carries no
`model` field; otherwise the path ends in `chat/completions`, the body
carries a `model` field, and the credential travels as a Bearer
`Authorization` header. -/
theorem claim_C5 : ∀ e : ClientEnv,
    (_is_azure (rstripSlashes (pyOrS (openai_base_url e) "")) = true →
      ∃ r, chat_request e = .ok r ∧
        strContains r.endpoint (azureDeployment e) = true ∧
        strContains r.endpoint ("api-version=" ++ openai_api_version e) = true ∧
        ("api-key", openai_api_key e) ∈ r.headers ∧
        r.bodyModel = none) ∧
    (_is_azure (rstripSlashes (pyOrS (openai_base_url e) "")) = false →
      ∃ r, chat_request e = .ok r ∧
        strEndsWith r.endpoint "chat/completions" = true ∧
        r.bodyModel = some (openai_model e) ∧
        ("Authorization", "Bearer " ++ openai_api_key e) ∈ r.headers) := by
  intro e
  have hmodel : openai_model e ≠ "" := envResolve_ne_empty _ _ (by decide)
  have hdep : azureDeployment e ≠ "" := envResolve_ne_empty _ _ hmodel
  constructor
  · intro haz
    refine ⟨{ endpoint := "openai/deployments/" ++ azureDeployment e
                 ++ "/chat/completions?api-version=" ++ openai_api_version e,
              headers := [("api-key", openai_api_key e), ("Content-Type", "application/json")],
              bodyModel := none }, ?_, ?_, ?_, ?_, rfl⟩
    · unfold chat_request
      dsimp only
      rw [if_pos haz, if_neg (by simpa using hdep)]
    · exact strContains_of_parts _ "openai/deployments/" (azureDeployment e)
        ("/chat/completions?api-version=" ++ openai_api_version e)
        (by simp [String.append_assoc])
    · refine strContains_of_parts _
        ("openai/deployments/" ++ azureDeployment e ++ "/chat/completions?")
        ("api-version=" ++ openai_api_version e) "" ?_
      have hemp : ∀ s : String, s ++ "" = s :=
        fun s => String.ext (List.append_nil s.data)
      have hlit : ("/chat/completions?api-version=" : String) =
          "/chat/completions?" ++ "api-version=" := by decide
      have hmid : ("/chat/completions?api-version=" : String) ++ openai_api_version e =
          "/chat/completions?" ++ ("api-version=" ++ openai_api_version e) := by
        rw [hlit, String.append_assoc]
      simp only [hemp, String.append_assoc, hmid]
    · exact List.mem_cons_self _ _
  · intro haz
    have haz' : ¬ _is_azure (rstripSlashes (pyOrS (openai_base_url e) "")) = true := by
      simp [haz]
    refine ⟨{ endpoint := if strEndsWith (rstripSlashes (pyOrS (openai_base_url e) "")) "/v1"
                          then "chat/completions" else "v1/chat/completions",
              headers := [("Authorization", "Bearer " ++ openai_api_key e),
                          ("Content-Type", "application/json")],
              bodyModel := some (pyOrS (openai_model e) "gpt-4o-mini") }, ?_, ?_, ?_, ?_⟩
    · unfold chat_request
      dsimp only
      rw [if_neg haz']
    · split_ifs
      · exact (by decide : strEndsWith "chat/completions" "chat/completions" = true)
      · exact (by decide : strEndsWith "v1/chat/completions" "chat/completions" = true)
    · show some (pyOrS (openai_model e) "gpt-4o-mini") = some (openai_model e)
      rw [pyOrS_ne _ _ hmodel]
    · exact List.mem_cons_self _ _

/-- C5 witness: both branches of `claim_C5`, at an Azure-hosted base and at
the default generic base respectively. -/
theorem claim_C5_witness :
    (_is_azure (rstripSlashes (pyOrS
        (openai_base_url { OPENAI_BASE_URL := some "https://myres.openai.azure.com" }) "")) = true ∧
      ∃ r, chat_request { OPENAI_BASE_URL := some "https://myres.openai.azure.com" } = .ok r ∧
        strContains r.endpoint
          (azureDeployment { OPENAI_BASE_URL := some "https://myres.openai.azure.com" }) = true ∧
        strContains r.endpoint
          ("api-version=" ++ openai_api_version { OPENAI_BASE_URL := some "https://myres.openai.azure.com" }) = true ∧
        ("api-key", openai_api_key { OPENAI_BASE_URL := some "https://myres.openai.azure.com" }) ∈ r.headers ∧
        r.bodyModel = none) ∧
    (_is_azure (rstripSlashes (pyOrS (openai_base_url {}) "")) = false ∧
      ∃ r, chat_request {} = .ok r ∧
        strEndsWith r.endpoint "chat/completions" = true ∧
        r.bodyModel = some (openai_model {}) ∧
        ("Authorization", "Bearer " ++ openai_api_key {}) ∈ r.headers) :=
  ⟨⟨by decide, (claim_C5 _).1 (by decide)⟩, ⟨by decide, (claim_C5 _).2 (by decide)⟩⟩

/-- C2: a completion attempt whose HTTP error response body carries the
quota-exhaustion code `insufficient_quota` makes `chat_complete` fail
immediately with that response surfaced — zero retries, zero backoff sleeps —
regardless of the status code (in particular for 429, which would otherwise
be retried; see the witness). -/
theorem claim_C2 : ∀ (resp : Nat → AttemptOutcome) (j : Nat → Rat) (s : Nat)
    (ra : Option Nat) (body text : String),
    resp 0 = .reply s (some "insufficient_quota") ra body text →
    ¬(200 ≤ s ∧ s ≤ 299) →
    chat_complete_run resp j = (.raisedStatus s body, []) := by
  intro resp j s ra body text h hs
  unfold chat_complete_run
  rw [range_attempts]
  exact chat_loop_quota h hs

/-- C2 witness: a quota-exhaustion body under status 429 fails at once. -/
theorem claim_C2_witness :
    respQuota429 0 = .reply 429 (some "insufficient_quota") none "quota body" "unused" ∧
    ¬((200 : Nat) ≤ 429 ∧ (429 : Nat) ≤ 299) ∧
    chat_complete_run respQuota429 jZero = (.raisedStatus 429 "quota body", []) :=
  ⟨rfl, by omega,
   claim_C2 respQuota429 jZero 429 none "quota body" "unused" rfl (by omega)⟩

/-- C3: retryable statuses (429 or any 5xx, whose body — parsed to any error
code other than the quota one, or to none — does not indicate quota
exhaustion) are retried with one backoff sleep each — the Retry-After value
verbatim when present, the computed exponential backoff otherwise — up to
the fixed maximum of 4 retries: a call failing retryably twice and then
succeeding returns the successful text after exactly 2 sleeps, and five
consecutive retryable failures exhaust the limit and re-raise the final
failure to the caller. -/
theorem claim_C3 :
    (∀ (resp : Nat → AttemptOutcome) (j : Nat → Rat)
       (s0 s1 s2 : Nat) (c0 c1 c2 : Option String) (ra0 ra1 ra2 : Option Nat)
       (b0 b1 b2 t0 t1 t2 : String),
      resp 0 = .reply s0 c0 ra0 b0 t0 → retryable s0 → c0 ≠ some "insufficient_quota" →
      resp 1 = .reply s1 c1 ra1 b1 t1 → retryable s1 → c1 ≠ some "insufficient_quota" →
      resp 2 = .reply s2 c2 ra2 b2 t2 → 200 ≤ s2 ∧ s2 ≤ 299 →
      chat_complete_run resp j = (.ok t2, [sleep_for j 0 ra0, sleep_for j 1 ra1])) ∧
    (∀ (resp : Nat → AttemptOutcome) (j : Nat → Rat)
       (s : Nat → Nat) (c : Nat → Option String) (ra : Nat → Option Nat)
       (b tx : Nat → String),
      (∀ i, i ≤ 4 → resp i = .reply (s i) (c i) (ra i) (b i) (tx i)) →
      (∀ i, i ≤ 4 → retryable (s i)) →
      (∀ i, i ≤ 4 → c i ≠ some "insufficient_quota") →
      chat_complete_run resp j =
        (.raisedStatus (s 4) (b 4),
         [sleep_for j 0 (ra 0), sleep_for j 1 (ra 1),
          sleep_for j 2 (ra 2), sleep_for j 3 (ra 3)])) := by
  constructor
  · intro resp j s0 s1 s2 c0 c1 c2 ra0 ra1 ra2 b0 b1 b2 t0 t1 t2
      h0 hr0 hc0 h1 hr1 hc1 h2 h2xx
    unfold chat_complete_run
    rw [range_attempts]
    rw [chat_loop_retry h0 hr0 hc0 (by decide)]
    rw [chat_loop_retry h1 hr1 hc1 (by decide)]
    rw [chat_loop_success h2 h2xx]
    simp
  · intro resp j s c ra b tx hresp hret hcode
    unfold chat_complete_run
    rw [range_attempts]
    rw [chat_loop_retry (hresp 0 (by omega)) (hret 0 (by omega)) (hcode 0 (by omega)) (by decide)]
    rw [chat_loop_retry (hresp 1 (by omega)) (hret 1 (by omega)) (hcode 1 (by omega)) (by decide)]
    rw [chat_loop_retry (hresp 2 (by omega)) (hret 2 (by omega)) (hcode 2 (by omega)) (by decide)]
    rw [chat_loop_retry (hresp 3 (by omega)) (hret 3 (by omega)) (hcode 3 (by omega)) (by decide)]
    rw [chat_loop_exhaust (hresp 4 (by omega)) (hret 4 (by omega)) (hcode 4 (by omega)) (by decide)]
    simp

/-- C3 witness: a 429 whose body carries the non-quota code
`rate_limit_exceeded`, then a hinted 503, then success returns the text
after two sleeps — the first computed, the second the hint verbatim; and
five plain 503s exhaust the limit and re-raise after four sleeps. -/
theorem claim_C3_witness :
    (retryable 429 ∧ some "rate_limit_exceeded" ≠ some "insufficient_quota" ∧
      chat_complete_run respTransientTwice jZero =
        (.ok "hi", [sleep_for jZero 0 none, sleep_for jZero 1 (some 7)])) ∧
    chat_complete_run respAlways503 jZero =
      (.raisedStatus 503 "unavailable",
       [sleep_for jZero 0 none, sleep_for jZero 1 none,
        sleep_for jZero 2 none, sleep_for jZero 3 none]) :=
  ⟨⟨Or.inl rfl, by decide,
    claim_C3.1 respTransientTwice jZero 429 503 200
      (some "rate_limit_exceeded") none none none (some 7) none "b0" "b1" "okbody"
      "t0" "t1" "hi" rfl (Or.inl rfl) (by decide) rfl (Or.inr (by omega)) (by decide)
      rfl (by omega)⟩,
   claim_C3.2 respAlways503 jZero (fun _ => 503) (fun _ => none) (fun _ => none)
     (fun _ => "unavailable") (fun _ => "t")
     (fun _ _ => rfl) (fun i _ => show retryable 503 from Or.inr (by omega))
     (fun i _ => show (none : Option String) ≠ some "insufficient_quota" from by decide)⟩

/-- C10 witness: `claim_C10` at a concrete input with no interests. -/
theorem claim_C10_witness :
    (25 : Int) ≤ 47 ∧ (5 : Int) ≤ (Breakdown.mk 20 15 12 0 "").topic_match ∧
    (12 : Int) ≤ (Breakdown.mk 20 15 12 0 "").info_density ∧
    (8 : Int) ≤ (Breakdown.mk 20 15 12 0 "").time_efficiency ∧
    (0 : Int) ≤ (Breakdown.mk 20 15 12 0 "").credibility ∧
    ((none : Option (List String)) = none → (Breakdown.mk 20 15 12 0 "").topic_match = 20) :=
  claim_C10 [] "web" 0 0 "" "" none 47 "Skip" ⟨20, 15, 12, 0, ""⟩ (by decide)

end Digester
